import Mathlib

/-!
Verification of the template-driven region extraction engine of
`pdf_tool.py` (classes `PDFProcessingThread` and `PDFMarkupTool`).

Modelling conventions:
* JSON values loaded with `json.load` are modelled by the inductive type
  `Raw`; Python floats are modelled exactly by `ℚ`.
* The external PDF collaborator (`fitz`) is modelled by `Doc`: a page
  count together with a function giving the stripped-and-joined text
  blocks for a page and clip rectangle.  A document path that cannot be
  opened (`fitz.Document` raising) is modelled as `none` in the list of
  documents handed to the pipeline.
* Exceptions are modelled with `Except String`; the message strings of
  the `ValueError`s raised by the template validation are taken verbatim
  from the source, the messages of the external collaborator are
  placeholders (only their propagation matters here, not their text).
* The `try/except/print` wrapper and the Qt signals of
  `PDFProcessingThread.run` are modelled by the record `RunResult`:
  `printedError` is the console print of the `except` block, `output`
  is the row list written by `df.to_excel` (`none` when that line is
  never reached), `progressEvents` are the values sent through the
  `progress` signal (Python `int((idx+1)/len*100)` is floor division,
  modelled as exact rational truncation), and `finishedEmitted` records
  the unconditional `self.finished.emit()`.
-/

set_option autoImplicit false

namespace PdfTool

/-- A JSON-compatible value as produced by `json.load`. -/
inductive Raw where
| num : Rat → Raw
| str : String → Raw
| bool : Bool → Raw
| null : Raw
| list : List Raw → Raw
| dict : List (String × Raw) → Raw

/-- Python dict key lookup `m[k]` on the association-list model of a dict. -/
def dictGet (m : List (String × Raw)) (k : String) : Option Raw :=
  match m with
  | [] => none
  | (k', v) :: rest => if k' = k then some v else dictGet rest k

/-- Python membership test `k in m`. -/
def hasKey (m : List (String × Raw)) (k : String) : Bool :=
  (dictGet m k).isSome

/-- `ValueError` message of `pdf_tool.py` line 28. -/
def templateListMsg : String := "Template file must contain a list of pages."

/-- `ValueError` message of `pdf_tool.py` line 32. -/
def pageKeysMsg : String :=
  "Each page in the template must contain 'page' and 'coordinates' keys."

/-- `ValueError` message of `pdf_tool.py` line 34. -/
def coordsListMsg : String :=
  "The 'coordinates' key must be associated with a list of areas."

/-- `ValueError` message of `pdf_tool.py` line 37. -/
def areaKeysMsg : String :=
  "Each area must contain 'x', 'y', 'width', and 'height' keys."

/-- Check of one area dict, `pdf_tool.py` lines 36-37. -/
def validateArea (a : Raw) : Except String Unit :=
  match a with
  | .dict m =>
      if hasKey m "x" && hasKey m "y" && hasKey m "width" && hasKey m "height"
      then .ok () else .error areaKeysMsg
  | _ => .error areaKeysMsg

/-- The inner loop of `pdf_tool.py` lines 35-37: first failing area raises. -/
def validateAreas : List Raw → Except String Unit
  | [] => .ok ()
  | a :: rest =>
    match validateArea a with
    | .error e => .error e
    | .ok _ => validateAreas rest

/-- Check of one template page, `pdf_tool.py` lines 31-37. -/
def validatePage (p : Raw) : Except String Unit :=
  match p with
  | .dict m =>
      if hasKey m "page" && hasKey m "coordinates" then
        match dictGet m "coordinates" with
        | some (.list areas) => validateAreas areas
        | _ => .error coordsListMsg
      else .error pageKeysMsg
  | _ => .error pageKeysMsg

/-- The outer validation loop of `pdf_tool.py` lines 30-37. -/
def validatePages : List Raw → Except String Unit
  | [] => .ok ()
  | p :: rest =>
    match validatePage p with
    | .error e => .error e
    | .ok _ => validatePages rest

/-- Template validation, `pdf_tool.py` lines 27-37: the top-level value
must be a list, each entry a dict with `page` and `coordinates` keys,
`coordinates` a list of dicts with `x`, `y`, `width`, `height` keys. -/
def validateTemplate (raw : Raw) : Except String Unit :=
  match raw with
  | .list pages => validatePages pages
  | _ => .error templateListMsg

/-- Spec-side shape predicate for one area, following the spec words: a
mapping containing all of `x`, `y`, `width`, `height`. -/
def specAreaShaped (a : Raw) : Bool :=
  match a with
  | .dict m => hasKey m "x" && hasKey m "y" && hasKey m "width" && hasKey m "height"
  | _ => false

/-- Spec-side shape predicate for one template page, following the spec
words: a mapping containing both `page` and `coordinates`, whose
`coordinates` value is a sequence of well-shaped areas. -/
def specPageShaped (p : Raw) : Bool :=
  match p with
  | .dict m =>
      hasKey m "page" && hasKey m "coordinates" &&
        (match dictGet m "coordinates" with
         | some (.list areas) => areas.all specAreaShaped
         | _ => false)
  | _ => false

/-- Spec-side shape predicate for a raw template, following the spec
words: a sequence of well-shaped page entries.  Note that it constrains
only container shapes and key presence, never the types of the values
stored under the keys. -/
def specWellShaped (raw : Raw) : Bool :=
  match raw with
  | .list pages => pages.all specPageShaped
  | _ => false

/-- A `fitz.Rect(x0, y0, x1, y1)` clip rectangle. -/
structure Rect where
  x0 : Rat
  y0 : Rat
  x1 : Rat
  y1 : Rat
deriving DecidableEq

/-- Model of an opened `fitz.Document`: its page count and, for each
page index and clip rectangle, the ordered text blocks returned by
`page.get_text("blocks", clip=rect)`, already projected to the text
component `block[4]` consumed by the pipeline. -/
structure Doc where
  pageCount : Nat
  blocksOn : Nat → Rect → List String

/-- Placeholder for the message of the exception raised by
`fitz.Document(path)` on an unreadable file. -/
def docOpenErrorMsg : String := "cannot open document"

/-- Placeholder for the message of the `IndexError` raised by
`doc[page_num]` when the index is out of range. -/
def pageRangeErrorMsg : String := "page not in document"

/-- Placeholder for the message of the exception raised by
`doc[page_num]` when the index is not an integer. -/
def pageTypeErrorMsg : String := "bad page number"

/-- Placeholder for the message of the exception raised while building
`fitz.Rect` from non-numeric area fields. -/
def rectTypeErrorMsg : String := "rect components must be numbers"

/-- Effective page index used by `fitz`: negative indices count from
the back of the document. -/
def fitzIndex (q : Int) (count : Nat) : Int :=
  if q < 0 then q + count else q

/-- `doc[page_num]`, `pdf_tool.py` line 48: `fitz` accepts an integer
index (negative indices count from the back) and raises otherwise. -/
def resolvePage (d : Doc) (v : Raw) : Except String Nat :=
  match v with
  | .num q =>
      if q.den = 1 then
        if 0 ≤ fitzIndex q.num d.pageCount ∧
            fitzIndex q.num d.pageCount < (d.pageCount : Int) then
          .ok (fitzIndex q.num d.pageCount).toNat
        else .error pageRangeErrorMsg
      else .error pageTypeErrorMsg
  | _ => .error pageTypeErrorMsg

/-- Python `str.strip()`: drop leading and trailing whitespace
(executable model over the character list). -/
def pyStrip (s : String) : String :=
  String.mk (((s.data.dropWhile Char.isWhitespace).reverse.dropWhile
    Char.isWhitespace).reverse)

/-- Python `sep.join(parts)`. -/
def pyJoin (sep : String) : List String → String
  | [] => ""
  | p :: rest => rest.foldl (fun acc q => acc ++ sep ++ q) p

/-- Lines 57-58: join the stripped block texts with newlines,
`"\n".join(block[4].strip() for block in text)`. -/
def extractClip (d : Doc) (pn : Nat) (r : Rect) : String :=
  pyJoin "\n" ((d.blocksOn pn r).map pyStrip)

/-- One area of the inner loop, `pdf_tool.py` lines 50-59: read the four
numeric fields, build `Rect(x, y, x+width, y+height)` and extract. -/
def processArea (d : Doc) (pn : Nat) (a : Raw) : Except String String :=
  match a with
  | .dict m =>
    match dictGet m "x", dictGet m "y", dictGet m "width", dictGet m "height" with
    | some (.num x), some (.num y), some (.num w), some (.num h) =>
        .ok (extractClip d pn ⟨x, y, x + w, y + h⟩)
    | _, _, _, _ => .error rectTypeErrorMsg
  | _ => .error rectTypeErrorMsg

/-- The `for area in coordinates` loop, lines 50-59, appending one row
per area; the first exception aborts. -/
def processAreas (d : Doc) (pn : Nat) : List Raw → Except String (List String)
  | [] => .ok []
  | a :: rest =>
    match processArea d pn a with
    | .error e => .error e
    | .ok row =>
      match processAreas d pn rest with
      | .error e => .error e
      | .ok more => .ok (row :: more)

/-- One template page of the middle loop, lines 44-59: read `page` and
`coordinates`, resolve the page index, process each area. -/
def processPageTemplate (d : Doc) (pt : Raw) : Except String (List String) :=
  match pt with
  | .dict m =>
    match dictGet m "page", dictGet m "coordinates" with
    | some pv, some (.list areas) =>
      (match resolvePage d pv with
       | .error e => .error e
       | .ok pn => processAreas d pn areas)
    | _, _ => .error pageKeysMsg
  | _ => .error pageKeysMsg

/-- The `for page_template in template` loop, lines 44-59. -/
def processPages (d : Doc) : List Raw → Except String (List String)
  | [] => .ok []
  | pt :: rest =>
    match processPageTemplate d pt with
    | .error e => .error e
    | .ok rows =>
      match processPages d rest with
      | .error e => .error e
      | .ok more => .ok (rows ++ more)

/-- One document of the outer loop, lines 42-62: open the document
(raises when unreadable), process every template page, then append one
empty-string separator row. -/
def processDoc (od : Option Doc) (tmpl : List Raw) : Except String (List String) :=
  match od with
  | none => .error docOpenErrorMsg
  | some d =>
    match processPages d tmpl with
    | .error e => .error e
    | .ok rows => .ok (rows ++ [""])

/-- The `for idx, pdf_path in enumerate(self.pdf_paths)` loop, lines
41-64, threading the accumulated rows and the emitted progress values;
`int((idx + 1) / len(self.pdf_paths) * 100)` truncates, modelled as
`Nat` floor division of the exact rational. -/
def runLoop (tmpl : List Raw) (total : Nat) :
    List (Option Doc) → Nat → List String → List Nat →
      List Nat × Except String (List String)
  | [], _, data, prog => (prog, .ok data)
  | od :: rest, idx, data, prog =>
    match processDoc od tmpl with
    | .error e => (prog, .error e)
    | .ok rows =>
        runLoop tmpl total rest (idx + 1) (data ++ rows)
          (prog ++ [100 * (idx + 1) / total])

/-- Observable outcome of one `PDFProcessingThread.run` call. -/
structure RunResult where
  printedError : Option String
  output : Option (List String)
  progressEvents : List Nat
  finishedEmitted : Bool
deriving DecidableEq

/-- `PDFProcessingThread.run`, `pdf_tool.py` lines 22-73: validate the
template, process every document, write the rows; any exception is
caught by the `except` block and printed, and `finished` is emitted
unconditionally. -/
def run (templateRaw : Raw) (docs : List (Option Doc)) : RunResult :=
  match validateTemplate templateRaw with
  | .error e => ⟨some e, none, [], true⟩
  | .ok _ =>
    match templateRaw with
    | .list tmpl =>
      match runLoop tmpl docs.length docs 0 [] [] with
      | (prog, .error e) => ⟨some e, none, prog, true⟩
      | (prog, .ok data) => ⟨none, some data, prog, true⟩
    | _ => ⟨some templateListMsg, none, [], true⟩

/-- `PDFMarkupTool.processing_finished`, lines 174-176: the message box
shown when the `finished` signal arrives.  The slot receives no success
or failure information, so the message is a constant. -/
def completionMessage (_ : RunResult) : String :=
  "The files have been processed and saved successfully."

/-- A page-relative rectangle in document coordinate space, the
quadruple stored under `x`, `y`, `width`, `height` in a template. -/
structure Region where
  x : Rat
  y : Rat
  width : Rat
  height : Rat
deriving DecidableEq

/-- One template entry: a page index and its regions. -/
structure TemplatePage where
  page : Nat
  coordinates : List Region
deriving DecidableEq

/-- A template: ordered sequence of page entries. -/
abbrev Template : Type := List TemplatePage

/-- The dict literal of `save_template`, lines 344-349. -/
def encodeRegion (r : Region) : Raw :=
  .dict [("x", .num r.x), ("y", .num r.y),
         ("width", .num r.width), ("height", .num r.height)]

/-- One page entry of the `template_data` literal, lines 341-352. -/
def encodePage (p : TemplatePage) : Raw :=
  .dict [("page", .num p.page),
         ("coordinates", .list (p.coordinates.map encodeRegion))]

/-- Encoding of a whole template to its raw storage form, the codec
direction written by `save_template` (generalised from the single-page
list the GUI produces to any list of page entries). -/
def encodeTemplate (t : Template) : Raw :=
  .list (t.map encodePage)

/-- Decoding of one area dict into a `Region`.  The repository keeps a
loaded template as raw JSON; this is the read-back of the four fields
exactly as the extraction loop accesses them (lines 52-55), requiring
numeric values. -/
def decodeRegion (a : Raw) : Except String Region :=
  match a with
  | .dict m =>
    match dictGet m "x", dictGet m "y", dictGet m "width", dictGet m "height" with
    | some (.num x), some (.num y), some (.num w), some (.num h) =>
        .ok ⟨x, y, w, h⟩
    | _, _, _, _ => .error rectTypeErrorMsg
  | _ => .error areaKeysMsg

/-- Decoding of a list of area dicts. -/
def decodeRegions : List Raw → Except String (List Region)
  | [] => .ok []
  | a :: rest =>
    match decodeRegion a with
    | .error e => .error e
    | .ok r =>
      match decodeRegions rest with
      | .error e => .error e
      | .ok rs => .ok (r :: rs)

/-- Message for a page value that is not a non-negative integer. -/
def pageIntMsg : String := "Page index must be a non-negative integer."

/-- Decoding of one page entry: the `page` value (read at line 45, used
as a direct page index) must be a non-negative integer, the
`coordinates` value (read at line 46) a list of area dicts. -/
def decodePage (p : Raw) : Except String TemplatePage :=
  match p with
  | .dict m =>
    match dictGet m "page", dictGet m "coordinates" with
    | some (.num q), some (.list areas) =>
        if q.den = 1 ∧ 0 ≤ q.num then
          match decodeRegions areas with
          | .error e => .error e
          | .ok rs => .ok ⟨q.num.toNat, rs⟩
        else .error pageIntMsg
    | _, _ => .error pageKeysMsg
  | _ => .error pageKeysMsg

/-- Decoding of a list of page entries. -/
def decodePages : List Raw → Except String (List TemplatePage)
  | [] => .ok []
  | p :: rest =>
    match decodePage p with
    | .error e => .error e
    | .ok tp =>
      match decodePages rest with
      | .error e => .error e
      | .ok tps => .ok (tp :: tps)

/-- The codec decode direction: raw storage form to structured
`Template`, failing on any shape or type violation. -/
def decodeTemplate (raw : Raw) : Except String Template :=
  match raw with
  | .list pages => decodePages pages
  | _ => .error templateListMsg

/-- The authoring-time state of `PDFMarkupTool` relevant to region
editing, for a loaded document: `len(self.pdf_document)`,
`self.current_page_index`, `self.selected_areas` (regions kept in
original scale) and `self.scale_factor`. -/
structure GuiState where
  pageCount : Nat
  currentPageIndex : Nat
  selectedAreas : List Region
  scaleFactor : Rat
deriving DecidableEq

/-- The `enumerate(self.selected_areas)` rendering of `show_page`,
lines 195-230: region `index` is displayed with ordinal label
`index + 1`, recomputed from position on every call. -/
def numberFrom : Nat → List Region → List (Nat × Region)
  | _, [] => []
  | i, r :: rest => (i + 1, r) :: numberFrom (i + 1) rest

/-- The list of (ordinal label, region) pairs `show_page` displays. -/
def showPageItems (s : GuiState) : List (Nat × Region) :=
  numberFrom 0 s.selectedAreas

/-- `PDFMarkupTool.prev_page`, lines 232-235: move back one page when
possible and redisplay. -/
def prev_page (s : GuiState) : GuiState :=
  if 0 < s.currentPageIndex then
    { s with currentPageIndex := s.currentPageIndex - 1 }
  else s

/-- `PDFMarkupTool.next_page`, lines 237-240: move forward one page when
possible and redisplay. -/
def next_page (s : GuiState) : GuiState :=
  if s.currentPageIndex < s.pageCount - 1 then
    { s with currentPageIndex := s.currentPageIndex + 1 }
  else s

/-- `PDFMarkupTool.remove_rect`, lines 327-337: delete the region at
`index` from the parallel lists when `0 <= index < len(self.rect_items)`
(the display list has the same length as `self.selected_areas`),
otherwise do nothing. -/
def remove_rect (s : GuiState) (index : Int) : GuiState :=
  if 0 ≤ index ∧ index < (s.selectedAreas.length : Int) then
    { s with selectedAreas := s.selectedAreas.eraseIdx index.toNat }
  else s

/-- Division of a display-space rectangle by the scale factor, the
`original_rect` computation of `eventFilter`, lines 284-289. -/
def unscaleRegion (f : Rat) (r : Region) : Region :=
  ⟨r.x / f, r.y / f, r.width / f, r.height / f⟩

/-- The mouse-release branch of `eventFilter`, lines 280-295: append the
drag rectangle, scaled back to document space, to `selected_areas`. -/
def appendArea (s : GuiState) (dragRect : Region) : GuiState :=
  { s with selectedAreas := s.selectedAreas ++ [unscaleRegion s.scaleFactor dragRect] }

/-- The `template_data` value of `PDFMarkupTool.save_template`, lines
340-353: a single-element list holding the current page index and the
whole region collection. -/
def saveTemplateData (pageIdx : Nat) (areas : List Region) : Raw :=
  .list [.dict [("page", .num pageIdx),
                ("coordinates", .list (areas.map encodeRegion))]]

/-- `save_template` applied to the GUI state. -/
def save_template (s : GuiState) : Raw :=
  saveTemplateData s.currentPageIndex s.selectedAreas

/-- Region-level extraction: the row produced for region `r` of page
`pg` of document `d` (lines 51-58 with the rectangle built from the
region fields). -/
def extractText (d : Doc) (pg : Nat) (r : Region) : String :=
  extractClip d pg ⟨r.x, r.y, r.x + r.width, r.y + r.height⟩

/-- A one-page document collaborator returning no text, for concrete
evaluations. -/
def demoDoc : Doc := ⟨1, fun _ _ => []⟩

/-- A demo region. -/
def demoRegion : Region := ⟨0, 0, 10, 10⟩

/-- A one-page template with two regions, for concrete evaluations. -/
def demoT : Template := [⟨0, [⟨0, 0, 1, 1⟩, ⟨5, 5, 2, 2⟩]⟩]

/-- A one-page document whose text depends on the clip rectangle, so
the two regions of `demoT` give distinguishable rows. -/
def demoDocA : Doc := ⟨1, fun _ r => if r.x0 = 0 then ["a1"] else ["a2"]⟩

/-- A second such document. -/
def demoDocB : Doc := ⟨1, fun _ r => if r.x0 = 0 then ["b1"] else ["b2"]⟩

/-- A raw template that is well-shaped but ill-typed: a string page
index, a string width, a negative height, and a negative page index in
the second entry. -/
def illTypedTemplate : Raw :=
  .list [.dict [("page", .str "first"),
                ("coordinates",
                 .list [.dict [("x", .num 0), ("y", .num 0),
                               ("width", .str "wide"), ("height", .num (-3))]])],
         .dict [("page", .num (-2)), ("coordinates", .list [])]]

theorem validateArea_ok_iff (a : Raw) :
    validateArea a = .ok () ↔ specAreaShaped a = true := by
  cases a with
  | dict m =>
      by_cases h : (hasKey m "x" && hasKey m "y" && hasKey m "width" && hasKey m "height") = true
      · simp [validateArea, specAreaShaped, h]
      · simp [validateArea, specAreaShaped, h]
  | num q => simp [validateArea, specAreaShaped]
  | str s => simp [validateArea, specAreaShaped]
  | bool b => simp [validateArea, specAreaShaped]
  | null => simp [validateArea, specAreaShaped]
  | list l => simp [validateArea, specAreaShaped]

theorem validateAreas_ok_iff (l : List Raw) :
    validateAreas l = .ok () ↔ l.all specAreaShaped = true := by
  induction l with
  | nil => simp [validateAreas]
  | cons a rest ih =>
    cases h : validateArea a with
    | error e =>
        have ha : ¬ specAreaShaped a = true := by
          intro hs
          have hok := (validateArea_ok_iff a).mpr hs
          rw [h] at hok
          exact Except.noConfusion hok
        simp [validateAreas, h, List.all_cons, ha]
    | ok u =>
        cases u
        have ha : specAreaShaped a = true := (validateArea_ok_iff a).mp h
        simp [validateAreas, h, List.all_cons, ha, ih]

theorem validatePage_ok_iff (p : Raw) :
    validatePage p = .ok () ↔ specPageShaped p = true := by
  cases p with
  | dict m =>
      by_cases hk : (hasKey m "page" && hasKey m "coordinates") = true
      · cases hc : dictGet m "coordinates" with
        | none => simp [validatePage, specPageShaped, hk, hc]
        | some v =>
            cases v <;>
              simp [validatePage, specPageShaped, hk, hc, validateAreas_ok_iff]
      · simp [validatePage, specPageShaped, hk]
  | num q => simp [validatePage, specPageShaped]
  | str s => simp [validatePage, specPageShaped]
  | bool b => simp [validatePage, specPageShaped]
  | null => simp [validatePage, specPageShaped]
  | list l => simp [validatePage, specPageShaped]

theorem validatePages_ok_iff (l : List Raw) :
    validatePages l = .ok () ↔ l.all specPageShaped = true := by
  induction l with
  | nil => simp [validatePages]
  | cons p rest ih =>
    cases h : validatePage p with
    | error e =>
        have hp : ¬ specPageShaped p = true := by
          intro hs
          have hok := (validatePage_ok_iff p).mpr hs
          rw [h] at hok
          exact Except.noConfusion hok
        simp [validatePages, h, List.all_cons, hp]
    | ok u =>
        cases u
        have hp : specPageShaped p = true := (validatePage_ok_iff p).mp h
        simp [validatePages, h, List.all_cons, hp, ih]

theorem validateTemplate_ok_iff (raw : Raw) :
    validateTemplate raw = .ok () ↔ specWellShaped raw = true := by
  cases raw with
  | list pages => simp [validateTemplate, specWellShaped, validatePages_ok_iff]
  | num q => simp [validateTemplate, specWellShaped]
  | str s => simp [validateTemplate, specWellShaped]
  | bool b => simp [validateTemplate, specWellShaped]
  | null => simp [validateTemplate, specWellShaped]
  | dict m => simp [validateTemplate, specWellShaped]

theorem run_of_validate_error (raw : Raw) (docs : List (Option Doc)) (e : String)
    (h : validateTemplate raw = .error e) :
    run raw docs = ⟨some e, none, [], true⟩ := by
  unfold run
  rw [h]

/-- Claim C3: decoding a raw template fails with a format error before
any extraction begins whenever the top-level value is not a sequence,
an element is not a mapping with both `page` and `coordinates`,
`coordinates` is not a sequence, or a coordinate element is not a
mapping with all of `x`, `y`, `width`, `height`; each of the four
violations produces a distinct, identifiable failure message, and a
failed validation makes the whole run stop with that error and no
extraction output or progress. -/
theorem template_validation_rejects_malformed :
    (∀ raw : Raw, specWellShaped raw = false →
        ∃ e, validateTemplate raw = .error e) ∧
    (∀ (raw : Raw) (docs : List (Option Doc)) (e : String),
        validateTemplate raw = .error e →
        run raw docs = ⟨some e, none, [], true⟩) ∧
    validateTemplate (.dict []) = .error templateListMsg ∧
    validateTemplate (.list [.dict [("coordinates", .list [])]]) =
      .error pageKeysMsg ∧
    validateTemplate (.list [.dict [("page", .num 0), ("coordinates", .str "x")]]) =
      .error coordsListMsg ∧
    validateTemplate (.list [.dict [("page", .num 0),
        ("coordinates", .list [.dict [("x", .num 1), ("y", .num 1),
                                      ("width", .num 1)]])]]) =
      .error areaKeysMsg ∧
    (templateListMsg ≠ pageKeysMsg ∧ templateListMsg ≠ coordsListMsg ∧
     templateListMsg ≠ areaKeysMsg ∧ pageKeysMsg ≠ coordsListMsg ∧
     pageKeysMsg ≠ areaKeysMsg ∧ coordsListMsg ≠ areaKeysMsg) := by
  refine ⟨?_, run_of_validate_error, by rfl, by rfl, by rfl, by rfl, ?_⟩
  · intro raw h
    cases hv : validateTemplate raw with
    | error e => exact ⟨e, rfl⟩
    | ok u =>
        cases u
        have := (validateTemplate_ok_iff raw).mp hv
        rw [h] at this
        exact absurd this (by simp)
  · refine ⟨?_, ?_, ?_, ?_, ?_, ?_⟩ <;> decide

/-- Witness for C3 at the concrete malformed template `{}`. -/
theorem template_validation_rejects_malformed_witness :
    (∃ e, validateTemplate (Raw.dict []) = .error e) ∧
    run (Raw.dict []) [] = ⟨some templateListMsg, none, [], true⟩ :=
  ⟨template_validation_rejects_malformed.1 (Raw.dict []) (by rfl),
   template_validation_rejects_malformed.2.1 (Raw.dict []) [] templateListMsg (by rfl)⟩

/-- Claim C9: template validation checks only container shapes and key
presence, never value types or ranges: every raw value that satisfies
the shape rules is accepted regardless of the types of the field
values (string `page`, string `width`, negative numbers); such errors
surface only later, during extraction, as the concrete run shows. -/
theorem validation_ignores_value_types :
    (∀ raw : Raw, specWellShaped raw = true → validateTemplate raw = .ok ()) ∧
    validateTemplate illTypedTemplate = .ok () ∧
    (run illTypedTemplate [some demoDoc]).printedError = some pageTypeErrorMsg ∧
    (run illTypedTemplate [some demoDoc]).output = none := by
  exact ⟨fun raw h => (validateTemplate_ok_iff raw).mpr h, by rfl, by rfl, by rfl⟩

/-- Witness for C9 at a concrete well-shaped, ill-typed template. -/
theorem validation_ignores_value_types_witness :
    validateTemplate (Raw.list [Raw.dict [("page", Raw.bool true),
        ("coordinates", Raw.list [])]]) = .ok () :=
  validation_ignores_value_types.1 _ (by rfl)

theorem decodeRegion_encodeRegion (r : Region) :
    decodeRegion (encodeRegion r) = .ok r := rfl

theorem decodeRegions_encode (rs : List Region) :
    decodeRegions (rs.map encodeRegion) = .ok rs := by
  induction rs with
  | nil => rfl
  | cons r rest ih =>
      simp [List.map_cons, decodeRegions, decodeRegion_encodeRegion, ih]

theorem decodePage_encodePage (p : TemplatePage) :
    decodePage (encodePage p) = .ok p := by
  unfold decodePage encodePage
  simp [dictGet, Rat.den_natCast, Rat.num_natCast, Int.natCast_nonneg,
    Int.toNat_natCast, decodeRegions_encode]

theorem decodePages_encode (t : List TemplatePage) :
    decodePages (t.map encodePage) = .ok t := by
  induction t with
  | nil => rfl
  | cons p rest ih =>
      simp [List.map_cons, decodePages, decodePage_encodePage, ih]

theorem decode_encode (t : Template) :
    decodeTemplate (encodeTemplate t) = .ok t :=
  decodePages_encode t

theorem specPageShaped_encodePage (p : TemplatePage) :
    specPageShaped (encodePage p) = true := by
  simp only [specPageShaped, encodePage, hasKey, dictGet]
  simp [List.all_eq_true]
  intro a _
  rfl

theorem validate_encode (t : Template) :
    validateTemplate (encodeTemplate t) = .ok () := by
  rw [validateTemplate_ok_iff]
  show (t.map encodePage).all specPageShaped = true
  rw [List.all_eq_true]
  intro x hx
  obtain ⟨p, _, rfl⟩ := List.mem_map.mp hx
  exact specPageShaped_encodePage p

/-- Claim C6: for every `Template` built from finite numeric fields,
encoding it to the raw storage form and decoding it back yields an
equal template (and the encoded form passes the loader validation). -/
theorem decode_encode_roundtrip : ∀ t : Template,
    decodeTemplate (encodeTemplate t) = .ok t ∧
    validateTemplate (encodeTemplate t) = .ok () :=
  fun t => ⟨decode_encode t, validate_encode t⟩

/-- Claim C10: the interactive save always produces a template with
exactly one page entry, whose `page` field is the currently displayed
page index and whose `coordinates` list is the whole region collection;
a region drawn before a page change is still in the collection
afterwards, so it is included too, and a multi-page template can never
be authored through this interface. -/
theorem save_template_single_page : ∀ s : GuiState,
    save_template s = encodeTemplate [⟨s.currentPageIndex, s.selectedAreas⟩] ∧
    decodeTemplate (save_template s) = .ok [⟨s.currentPageIndex, s.selectedAreas⟩] ∧
    ∀ r : Region, (next_page (appendArea s r)).selectedAreas
        = s.selectedAreas ++ [unscaleRegion s.scaleFactor r] := by
  intro s
  refine ⟨rfl, ?_, ?_⟩
  · show decodeTemplate (encodeTemplate [⟨s.currentPageIndex, s.selectedAreas⟩]) = _
    exact decode_encode _
  · intro r
    unfold next_page
    split <;> rfl

theorem numberFrom_get? (l : List Region) : ∀ (n j : Nat),
    (numberFrom n l).get? j = (l.get? j).map (fun r => (n + j + 1, r)) := by
  induction l with
  | nil => intro n j; simp [numberFrom]
  | cons r rest ih =>
      intro n j
      cases j with
      | zero => simp [numberFrom]
      | succ k =>
          have h := ih (n + 1) k
          simp only [numberFrom, List.get?]
          rw [h]
          cases rest.get? k <;> simp <;> omega

theorem eraseIdx_append_cons (pre post : List Region) (r : Region) :
    (pre ++ r :: post).eraseIdx pre.length = pre ++ post := by
  induction pre with
  | nil => rfl
  | cons a pre ih => simp [List.eraseIdx, ih]

/-- Counterexample to C7 as stated: removing at an out-of-bounds index
(positive or negative) raises nothing and leaves the collection
unchanged — the guard makes it a silent no-op, not an `IndexError`. -/
theorem remove_out_of_bounds_counterexample :
    remove_rect ⟨3, 0, [demoRegion], 1⟩ 5 = ⟨3, 0, [demoRegion], 1⟩ ∧
    remove_rect ⟨3, 0, [demoRegion], 1⟩ (-1) = ⟨3, 0, [demoRegion], 1⟩ := by
  exact ⟨rfl, rfl⟩

/-- Claim C7 (amended): an out-of-bounds `remove_rect` (negative or not
below the region count) is a silent no-op leaving the state unchanged;
an in-bounds removal deletes exactly that element, the redisplayed
ordinal labels are recomputed from position (label = position + 1), and
every element after the removed one moves down one position, so its
label decreases by one. -/
theorem remove_rect_spec (s : GuiState) (i : Int) :
    (¬ (0 ≤ i ∧ i < (s.selectedAreas.length : Int)) → remove_rect s i = s) ∧
    (∀ (pre post : List Region) (r : Region),
        s.selectedAreas = pre ++ r :: post → i = (pre.length : Int) →
        (remove_rect s i).selectedAreas = pre ++ post ∧
        (∀ j, (showPageItems (remove_rect s i)).get? j
            = ((pre ++ post).get? j).map (fun x => (j + 1, x))) ∧
        (∀ k, (pre ++ post).get? (pre.length + k) = post.get? k ∧
              (pre ++ r :: post).get? (pre.length + 1 + k) = post.get? k)) := by
  constructor
  · intro h
    unfold remove_rect
    rw [if_neg h]
  · intro pre post r hs hi
    have hcond : 0 ≤ i ∧ i < (s.selectedAreas.length : Int) := by
      subst hi
      rw [hs, List.length_append, List.length_cons]
      constructor
      · exact Int.natCast_nonneg _
      · push_cast
        omega
    have hareas : (remove_rect s i).selectedAreas = pre ++ post := by
      unfold remove_rect
      rw [if_pos hcond]
      show s.selectedAreas.eraseIdx i.toNat = pre ++ post
      subst hi
      rw [hs, Int.toNat_natCast]
      exact eraseIdx_append_cons pre post r
    refine ⟨hareas, ?_, ?_⟩
    · intro j
      show (numberFrom 0 (remove_rect s i).selectedAreas).get? j = _
      rw [hareas, numberFrom_get?]
      simp
    · intro k
      constructor
      · rw [List.get?_append_right (Nat.le_add_right _ _)]
        simp
      · rw [List.get?_append_right (by omega)]
        have : pre.length + 1 + k - pre.length = k + 1 := by omega
        rw [this]
        simp

/-- Witness for C7 at the concrete collection `[A, B, C]`: removing
index 0 leaves `[B, C]` with labels 1 and 2, and removing index 7 is a
no-op. -/
theorem remove_rect_spec_witness :
    (remove_rect ⟨1, 0, [⟨1, 1, 1, 1⟩, ⟨2, 2, 2, 2⟩, ⟨3, 3, 3, 3⟩], 1⟩ 0).selectedAreas
      = [⟨2, 2, 2, 2⟩, ⟨3, 3, 3, 3⟩] ∧
    remove_rect ⟨1, 0, [⟨1, 1, 1, 1⟩, ⟨2, 2, 2, 2⟩, ⟨3, 3, 3, 3⟩], 1⟩ 7
      = ⟨1, 0, [⟨1, 1, 1, 1⟩, ⟨2, 2, 2, 2⟩, ⟨3, 3, 3, 3⟩], 1⟩ :=
  ⟨((remove_rect_spec ⟨1, 0, [⟨1, 1, 1, 1⟩, ⟨2, 2, 2, 2⟩, ⟨3, 3, 3, 3⟩], 1⟩ 0).2
      [] [⟨2, 2, 2, 2⟩, ⟨3, 3, 3, 3⟩] ⟨1, 1, 1, 1⟩ rfl rfl).1,
   (remove_rect_spec ⟨1, 0, [⟨1, 1, 1, 1⟩, ⟨2, 2, 2, 2⟩, ⟨3, 3, 3, 3⟩], 1⟩ 7).1
     (by decide)⟩

/-- Counterexample to C8 as stated: with one selected region on page 0,
moving to the next page changes the displayed page but the region
collection is not discarded — it carries over and is redisplayed on the
new page. -/
theorem page_change_keeps_regions_counterexample :
    (next_page ⟨2, 0, [demoRegion], 1⟩).currentPageIndex = 1 ∧
    (next_page ⟨2, 0, [demoRegion], 1⟩).selectedAreas = [demoRegion] ∧
    showPageItems (next_page ⟨2, 0, [demoRegion], 1⟩) = [(1, demoRegion)] :=
  ⟨rfl, rfl, rfl⟩

/-- Claim C8 (amended): the region collection is not scoped to the
displayed page: `prev_page` and `next_page` preserve `selected_areas`
unchanged, and `show_page` redisplays every region (with its ordinal
label) on the newly displayed page. -/
theorem page_change_preserves_selection : ∀ s : GuiState,
    (next_page s).selectedAreas = s.selectedAreas ∧
    (prev_page s).selectedAreas = s.selectedAreas ∧
    showPageItems (next_page s) = showPageItems s ∧
    showPageItems (prev_page s) = showPageItems s := by
  intro s
  refine ⟨?_, ?_, ?_, ?_⟩
  · unfold next_page; split <;> rfl
  · unfold prev_page; split <;> rfl
  · unfold showPageItems next_page; split <;> rfl
  · unfold showPageItems prev_page; split <;> rfl

theorem resolvePage_natCast (d : Doc) (n : Nat) :
    resolvePage d (.num n) =
      if n < d.pageCount then .ok n else .error pageRangeErrorMsg := by
  simp only [resolvePage, fitzIndex]
  rw [if_pos (Rat.den_natCast n), Rat.num_natCast]
  rw [if_neg (by omega : ¬ ((n : Int) < 0))]
  by_cases h : n < d.pageCount
  · rw [if_pos ⟨Int.natCast_nonneg n, by exact_mod_cast h⟩, if_pos h, Int.toNat_natCast]
  · rw [if_neg (fun hc => h (by exact_mod_cast hc.2)), if_neg h]

theorem processArea_encodeRegion (d : Doc) (pn : Nat) (r : Region) :
    processArea d pn (encodeRegion r) = .ok (extractText d pn r) := rfl

theorem processAreas_encode (d : Doc) (pn : Nat) (rs : List Region) :
    processAreas d pn (rs.map encodeRegion) = .ok (rs.map (extractText d pn)) := by
  induction rs with
  | nil => rfl
  | cons r rest ih =>
      simp [List.map_cons, processAreas, processArea_encodeRegion, ih]

theorem processPageTemplate_encodePage (d : Doc) (p : TemplatePage) :
    processPageTemplate d (encodePage p) =
      if p.page < d.pageCount
      then .ok (p.coordinates.map (extractText d p.page))
      else .error pageRangeErrorMsg := by
  show (match resolvePage d (.num p.page) with
        | Except.error e => (Except.error e : Except String (List String))
        | Except.ok pn => processAreas d pn (p.coordinates.map encodeRegion)) = _
  rw [resolvePage_natCast]
  by_cases h : p.page < d.pageCount
  · rw [if_pos h, if_pos h]
    exact processAreas_encode d p.page p.coordinates
  · rw [if_neg h, if_neg h]

theorem processPages_encode (d : Doc) (t : List TemplatePage)
    (h : ∀ p ∈ t, p.page < d.pageCount) :
    processPages d (t.map encodePage) =
      .ok (t.bind fun p => p.coordinates.map (extractText d p.page)) := by
  induction t with
  | nil => rfl
  | cons p rest ih =>
      have hp : p.page < d.pageCount := h p (by simp)
      have hr : ∀ q ∈ rest, q.page < d.pageCount := fun q hq => h q (by simp [hq])
      simp [List.map_cons, processPages, processPageTemplate_encodePage, hp, ih hr,
        List.cons_bind]

theorem processDoc_encode (d : Doc) (t : List TemplatePage)
    (h : ∀ p ∈ t, p.page < d.pageCount) :
    processDoc (some d) (t.map encodePage) =
      .ok ((t.bind fun p => p.coordinates.map (extractText d p.page)) ++ [""]) := by
  simp [processDoc, processPages_encode d t h]

theorem processPages_encode_fail (d : Doc) (t : List TemplatePage)
    (h : ∃ p ∈ t, d.pageCount ≤ p.page) :
    ∃ e, processPages d (t.map encodePage) = .error e := by
  induction t with
  | nil =>
      obtain ⟨p, hp, _⟩ := h
      exact absurd hp (List.not_mem_nil p)
  | cons p0 rest ih =>
      cases hh : processPageTemplate d (encodePage p0) with
      | error e => exact ⟨e, by simp [List.map_cons, processPages, hh]⟩
      | ok rows =>
          obtain ⟨p, hp, hbad⟩ := h
          rcases List.mem_cons.mp hp with rfl | hp'
          · rw [processPageTemplate_encodePage, if_neg (by omega)] at hh
            exact Except.noConfusion hh
          · obtain ⟨e, he⟩ := ih ⟨p, hp', hbad⟩
            exact ⟨e, by simp [List.map_cons, processPages, hh, he]⟩

theorem processDoc_encode_fail (d : Doc) (t : List TemplatePage)
    (h : ∃ p ∈ t, d.pageCount ≤ p.page) :
    ∃ e, processDoc (some d) (t.map encodePage) = .error e := by
  obtain ⟨e, he⟩ := processPages_encode_fail d t h
  exact ⟨e, by simp [processDoc, he]⟩

theorem map_range_div_shift (idx total n : Nat) :
    (100 * (idx + 1) / total) ::
        (List.range n).map (fun i => 100 * (idx + 1 + i + 1) / total)
      = (List.range (n + 1)).map (fun i => 100 * (idx + i + 1) / total) := by
  rw [List.range_succ_eq_map, List.map_cons, List.map_map]
  refine congrArg₂ List.cons (by simp) ?_
  refine List.map_congr_left ?_
  intro a _
  show 100 * (idx + 1 + a + 1) / total = 100 * (idx + (a + 1) + 1) / total
  have hx : idx + 1 + a + 1 = idx + (a + 1) + 1 := by omega
  rw [hx]

theorem runLoop_encode (t : List TemplatePage) (total : Nat) :
    ∀ (docs : List Doc) (idx : Nat) (data : List String) (prog : List Nat),
      (∀ d ∈ docs, ∀ p ∈ t, p.page < d.pageCount) →
      runLoop (t.map encodePage) total (docs.map some) idx data prog =
        (prog ++ (List.range docs.length).map (fun i => 100 * (idx + i + 1) / total),
         .ok (data ++ docs.bind (fun d =>
           (t.bind fun p => p.coordinates.map (extractText d p.page)) ++ [""]))) := by
  intro docs
  induction docs with
  | nil =>
      intro idx data prog _
      simp [runLoop]
  | cons d rest ih =>
      intro idx data prog h
      have hd : ∀ p ∈ t, p.page < d.pageCount := h d (by simp)
      have hrest : ∀ x ∈ rest, ∀ p ∈ t, p.page < x.pageCount :=
        fun x hx => h x (by simp [hx])
      simp only [List.map_cons, runLoop, processDoc_encode d t hd, List.length_cons]
      rw [ih (idx + 1) _ _ hrest]
      rw [List.append_assoc, List.singleton_append,
        map_range_div_shift idx total rest.length]
      refine congrArg₂ Prod.mk rfl (congrArg Except.ok ?_)
      simp [List.cons_bind, List.append_assoc]

theorem run_list (tmpl : List Raw) (docs : List (Option Doc))
    (hv : validatePages tmpl = .ok ()) :
    run (.list tmpl) docs =
      match runLoop tmpl docs.length docs 0 [] [] with
      | (prog, .error e) => ⟨some e, none, prog, true⟩
      | (prog, .ok data) => ⟨none, some data, prog, true⟩ := by
  unfold run
  rw [show validateTemplate (.list tmpl) = .ok () from hv]

theorem run_encode (t : Template) (docs : List Doc)
    (h : ∀ d ∈ docs, ∀ p ∈ t, p.page < d.pageCount) :
    run (encodeTemplate t) (docs.map some) =
      ⟨none,
       some (docs.bind fun d =>
         (t.bind fun p => p.coordinates.map (extractText d p.page)) ++ [""]),
       (List.range docs.length).map (fun i => 100 * (i + 1) / docs.length),
       true⟩ := by
  have hv : validatePages (t.map encodePage) = .ok () := validate_encode t
  show run (.list (t.map encodePage)) (docs.map some) = _
  rw [run_list (t.map encodePage) (docs.map some) hv]
  rw [runLoop_encode t (docs.map some).length docs 0 [] [] h]
  simp only [List.nil_append, List.length_map]
  congr 1
  refine List.map_congr_left ?_
  intro a _
  congr 2
  omega

/-- Claim C1: the run never surfaces a structured error value: every
exception is swallowed into a console print, `finished` is emitted
unconditionally (also on error), and the front end then reports
success with a constant message regardless of the outcome.  Concretely,
with a document that cannot be opened the run prints the open error,
produces no output, and still signals completion. -/
theorem run_error_print_and_finished :
    (∀ (raw : Raw) (docs : List (Option Doc)), (run raw docs).finishedEmitted = true) ∧
    (∀ r : RunResult,
        completionMessage r = "The files have been processed and saved successfully.") ∧
    (run (Raw.list []) [none]).printedError = some docOpenErrorMsg ∧
    (run (Raw.list []) [none]).output = none := by
  refine ⟨?_, fun _ => rfl, rfl, rfl⟩
  intro raw docs
  unfold run
  (repeat' split) <;> rfl

/-- Claim C2: if resolving a template page index is out of range for
any document of the batch, the run writes no rows at all — including
rows of documents already fully processed; the output destination is
never written. -/
theorem page_out_of_range_aborts (t : Template) (docs : List Doc)
    (h : ∃ d ∈ docs, ∃ p ∈ t, d.pageCount ≤ p.page) :
    (run (encodeTemplate t) (docs.map some)).output = none := by
  have hv : validatePages (t.map encodePage) = .ok () := validate_encode t
  have hloop : ∀ (total : Nat) (ds : List Doc) (idx : Nat)
      (data : List String) (prog : List Nat),
      (∃ d ∈ ds, ∃ p ∈ t, d.pageCount ≤ p.page) →
      ∃ e prog',
        runLoop (t.map encodePage) total (ds.map some) idx data prog
          = (prog', .error e) := by
    intro total ds
    induction ds with
    | nil =>
        intro idx data prog hex
        obtain ⟨d, hd, _⟩ := hex
        exact absurd hd (List.not_mem_nil d)
    | cons d0 rest ih =>
        intro idx data prog hex
        cases hpd : processDoc (some d0) (t.map encodePage) with
        | error e => exact ⟨e, prog, by simp [List.map_cons, runLoop, hpd]⟩
        | ok rows =>
            obtain ⟨d, hd, p, hp, hbad⟩ := hex
            rcases List.mem_cons.mp hd with rfl | hd'
            · obtain ⟨e, he⟩ := processDoc_encode_fail d t ⟨p, hp, hbad⟩
              rw [hpd] at he
              exact Except.noConfusion he
            · obtain ⟨e, prog', he⟩ :=
                ih (idx + 1) (data ++ rows)
                  (prog ++ [100 * (idx + 1) / total])
                  ⟨d, hd', p, hp, hbad⟩
              exact ⟨e, prog', by simp [List.map_cons, runLoop, hpd, he]⟩
  obtain ⟨e, prog', he⟩ := hloop (docs.map some).length docs 0 [] [] h
  show (run (.list (t.map encodePage)) (docs.map some)).output = none
  rw [run_list (t.map encodePage) (docs.map some) hv, he]

/-- Witness for C2: a template asking for page 5 applied to a one-page
document produces no output at all. -/
theorem page_out_of_range_aborts_witness :
    (run (encodeTemplate [⟨5, []⟩]) ([demoDoc].map some)).output = none :=
  page_out_of_range_aborts [⟨5, []⟩] [demoDoc]
    ⟨demoDoc, by simp, ⟨5, []⟩, by simp, by decide⟩

/-- Claim C4: on a successful run the output rows appear in document
order (outer) × template-page order (middle) × region order (inner),
with exactly one empty-string separator row appended after each
document's rows. -/
theorem extraction_rows_ordered (t : Template) (docs : List Doc)
    (h : ∀ d ∈ docs, ∀ p ∈ t, p.page < d.pageCount) :
    (run (encodeTemplate t) (docs.map some)).output =
      some (docs.bind fun d =>
        (t.bind fun p => p.coordinates.map (extractText d p.page)) ++ [""]) := by
  rw [run_encode t docs h]

/-- Witness for C4: two documents and a one-page, two-region template
produce exactly the six rows doc1-region1, doc1-region2, separator,
doc2-region1, doc2-region2, separator. -/
theorem extraction_rows_ordered_witness :
    (run (encodeTemplate demoT) ([demoDocA, demoDocB].map some)).output
      = some ["a1", "a2", "", "b1", "b2", ""] := by
  have hyp : ∀ d ∈ [demoDocA, demoDocB], ∀ p ∈ demoT, p.page < d.pageCount := by
    intro d hd p hp
    simp only [demoT, List.mem_singleton] at hp
    subst hp
    rcases List.mem_cons.mp hd with rfl | hd'
    · decide
    · rw [List.mem_singleton.mp hd']
      decide
  rw [extraction_rows_ordered demoT [demoDocA, demoDocB] hyp]
  decide

/-- Counterexample to C5 as stated: over three documents the second
emitted progress value is 66 (Python `int()` truncates), while
`round(100 * 2 / 3) = 67`; the emitted value is not the rounded
ratio. -/
theorem progress_round_counterexample :
    (run (encodeTemplate []) [some demoDoc, some demoDoc, some demoDoc]).progressEvents
      = [33, 66, 100] ∧
    round ((100 * 2 : ℚ) / 3) = 67 ∧ (66 : Nat) ≠ 67 := by
  refine ⟨rfl, ?_, by decide⟩
  rw [round_eq]
  rw [show ((100 * 2 : ℚ) / 3 + 1 / 2) = 403 / 6 by norm_num]
  rw [Int.floor_eq_iff]
  constructor <;> norm_num

/-- Claim C5 (amended): on a successful run over N documents the
progress callback fires exactly N times, once after each document,
with value `100 * processed / N` rounded toward zero (truncating
integer conversion, not `round`); the values are monotonically
non-decreasing and the final value is exactly 100. -/
theorem progress_truncation_spec (t : Template) (docs : List Doc)
    (h : ∀ d ∈ docs, ∀ p ∈ t, p.page < d.pageCount) :
    (run (encodeTemplate t) (docs.map some)).progressEvents
        = (List.range docs.length).map (fun i => 100 * (i + 1) / docs.length) ∧
    (run (encodeTemplate t) (docs.map some)).progressEvents.length = docs.length ∧
    (run (encodeTemplate t) (docs.map some)).progressEvents.Pairwise (· ≤ ·) ∧
    (docs ≠ [] →
      (run (encodeTemplate t) (docs.map some)).progressEvents.getLast? = some 100) := by
  have hr := run_encode t docs h
  refine ⟨?_, ?_, ?_, ?_⟩
  · rw [hr]
  · rw [hr]
    simp
  · rw [hr]
    exact List.Pairwise.map _
      (fun a b hab => Nat.div_le_div_right (by omega))
      (List.pairwise_lt_range docs.length)
  · intro hne
    rw [hr]
    cases docs with
    | nil => exact absurd rfl hne
    | cons d ds =>
        show ((List.range (ds.length + 1)).map
            (fun i => 100 * (i + 1) / (ds.length + 1))).getLast? = some 100
        rw [List.range_succ, List.map_append, List.map_singleton,
          List.getLast?_append_cons]
        show some (100 * (ds.length + 1) / (ds.length + 1)) = some 100
        rw [Nat.mul_div_cancel 100 (Nat.succ_pos ds.length)]

/-- Witness for C5 (amended) over three documents: the events are
exactly [33, 66, 100] and the last one is 100. -/
theorem progress_truncation_witness :
    (run (encodeTemplate []) ([demoDoc, demoDoc, demoDoc].map some)).progressEvents
        = [33, 66, 100] ∧
    (run (encodeTemplate []) ([demoDoc, demoDoc, demoDoc].map some)).progressEvents.getLast?
        = some 100 := by
  have h := progress_truncation_spec [] [demoDoc, demoDoc, demoDoc]
    (fun d _ p hp => absurd hp (List.not_mem_nil p))
  exact ⟨by rw [h.1]; decide, h.2.2.2 (by simp)⟩

end PdfTool
